import Mathlib

/-!
Shallow embedding of the staged dialogue controller of the robotics
troubleshooting advisor (files `src/workflow.ts` and `src/index.ts`),
together with proofs of the behavioural properties of its stage policy,
chat orchestrator and session store.

Machine strings are Lean `String`; JavaScript truthiness of an optional
string field (`undefined`, `null` and `""` are falsy) is made explicit
through `Option String` and the helpers `jsTruthy` / `jsStrOr`.  External
effects of the orchestrator (the Durable Object fetches and the Workers AI
call) are modelled by outcome oracles passed in as data, and the calls the
orchestrator issues are returned as an explicit trace.
-/

namespace RoboticsAdvisor

/-- A chat message as stored in conversation history
(interface `ChatMessage` of `index.ts`). -/
structure ChatMessage where
  role : String
  content : String
  timestamp : Nat
deriving DecidableEq, Repr

/-- A role/content message sent to the generation backend
(interface `AiMessage` of `index.ts`). -/
structure AiMessage where
  role : String
  content : String
deriving DecidableEq, Repr

/-- The value returned by the generation backend: an optional `response`
text field, plus the string rendering that `String(...)` would produce on
the whole value (interface `AiResponse` of `index.ts`). -/
structure AiResponse where
  response : Option String
  render : String
deriving DecidableEq, Repr

/-- JavaScript truthiness of an optional string: absent and `""` are falsy. -/
def jsTruthy : Option String → Bool
  | none => false
  | some s => s != ""

/-- JavaScript `v || d` on an optional string: absent or `""` falls back. -/
def jsStrOr (v : Option String) (d : String) : String :=
  match v with
  | none => d
  | some s => if s = "" then d else s

/-- The `initial` system prompt of `getSystemPromptForStage` (`workflow.ts`). -/
def initialPrompt : String :=
  "You are a robotics troubleshooting expert. A user is describing a robot problem.\n\nAsk only the most essential questions you need to understand the situation. Start with basic context:\n- What type of robot and what problem are they experiencing?\n\nIf the user already provided details, acknowledge them and ask follow-up questions as needed. Don't ask questions they've already answered.\n\nBe conversational, friendly, and concise."

/-- The `diagnostic` system prompt of `getSystemPromptForStage` (`workflow.ts`). -/
def diagnosticPrompt : String :=
  "You are a robotics troubleshooting expert analyzing a specific robot problem.\n\nBased on what the user has told you:\n- If you strongly suspect a specific cause, ask 1-2 targeted questions to confirm it\n- If the issue is still unclear, ask the most relevant diagnostic question\n\nConsider:\n- Mechanical issues (misalignment, wear, binding)\n- Electrical issues (power, servo failures, wiring)\n- Control issues (PID tuning, sensor calibration)\n- Software issues (bugs, incorrect parameters)\n- And a lot more\n\nBe efficient - don't ask unnecessary questions if you can already identify the problem."

/-- The `solution` system prompt of `getSystemPromptForStage` (`workflow.ts`). -/
def solutionPrompt : String :=
  "You are a robotics troubleshooting expert. You have gathered sufficient information.\n\nProvide a clear, structured diagnosis with BLANK LINES between each section:\n\n**Root Cause**: What is causing the problem\n\n**Solution Steps**: \n1. First action\n2. Second action\n3. Third action\n\n**Prevention**: How to avoid this in future\n\n**Parts/Tools**: List any components needed\n\nIMPORTANT: Add two line breaks (NEW LINES) between each Solution step for readability. Be practical, actionable, and specific."

/-- `getSystemPromptForStage` (`workflow.ts`): look the stage up in the
prompt dictionary, falling back to the `initial` prompt for any key that is
not present (`prompts[stage] || prompts.initial`). -/
def getSystemPromptForStage (stage : String) : String :=
  if stage = "initial" then initialPrompt
  else if stage = "diagnostic" then diagnosticPrompt
  else if stage = "solution" then solutionPrompt
  else initialPrompt

/-- The `solutionKeywords` list computed in the diagnostic branch of
`determineNextStage` (`workflow.ts`).  It is bound there but never read. -/
def solutionKeywords : List String :=
  ["root cause", "likely cause", "problem is", "issue is",
   "reduce", "increase", "replace", "upgrade", "try this",
   "adjust", "calibrate", "check the", "verify the"]

/-- `determineNextStage` (`workflow.ts`).  The function only ever inspects
`currentStage` and `history.length`, so the history element type is left
polymorphic; `lower` and `solutionKeywords` are bound exactly as in the
source and never used. -/
def determineNextStage {α : Type} (currentStage : String) (userMessage : String)
    (history : List α) : String :=
  let _lower := userMessage.toLower
  if currentStage = "initial" then
    if history.length ≥ 2 then "diagnostic" else "initial"
  else if currentStage = "diagnostic" then
    let _solutionKeywords := solutionKeywords
    if history.length ≥ 4 then "solution" else "diagnostic"
  else
    "solution"

/-- Output record of `DiagnosisWorkflow.run` (`workflow.ts`). -/
structure DiagnosisOutput where
  systemPrompt : String
  nextStage : String
  sessionId : String
deriving DecidableEq, Repr

/-- `DiagnosisWorkflow.run` (`workflow.ts`): selects the system prompt for
the current stage and computes the next stage. -/
def diagnosisWorkflowRun (sessionId userMessage : String)
    (conversationHistory : List (Option ChatMessage)) (currentStage : String) :
    DiagnosisOutput :=
  { systemPrompt := getSystemPromptForStage currentStage
    nextStage := determineNextStage currentStage userMessage conversationHistory
    sessionId := sessionId }

/-- The two storage keys of the `AdvisorState` Durable Object: the parsed
`history` array and the raw `stage` value, each possibly absent. -/
structure StoredState where
  historyKey : Option (List ChatMessage)
  stageKey : Option String
deriving DecidableEq, Repr

/-- Body of the success response of `AdvisorState.handleMessage`. -/
structure MessageAck where
  success : Bool
  messageCount : Nat
  stage : String
deriving DecidableEq, Repr

/-- `AdvisorState.handleMessage` (`index.ts`): read the stored history
(defaulting to `[]` when absent), append a user turn and an assistant turn
timestamped at write time (`t1`, `t2` are the two `Date.now()` readings),
store the history and the given `nextStage`, and acknowledge. -/
def handleMessage (st : StoredState) (userMessage assistantMessage nextStage : String)
    (t1 t2 : Nat) : StoredState × MessageAck :=
  let history := (st.historyKey.getD []) ++
    [⟨"user", userMessage, t1⟩, ⟨"assistant", assistantMessage, t2⟩]
  (⟨some history, some nextStage⟩, ⟨true, history.length, nextStage⟩)

/-- Body of the response of `AdvisorState.getState`. -/
structure StateView where
  stage : String
  messageCount : Nat
  history : List ChatMessage
deriving DecidableEq, Repr

/-- `AdvisorState.getState` (`index.ts`): the stored history defaults to
`[]` when absent, and the stage falls back to `"initial"` whenever the
stored value is falsy (`await storage.get('stage') || 'initial'`), which
covers both an absent key and an empty-string stage. -/
def getState (st : StoredState) : StateView :=
  let history := st.historyKey.getD []
  { stage := jsStrOr st.stageKey "initial"
    messageCount := history.length
    history := history }

/-- JavaScript truthiness of one history entry in the assembly filter of
`handleChat`: `m && m.role && m.content`. -/
def entryTruthy : Option ChatMessage → Bool
  | none => false
  | some m => m.role != "" && m.content != ""

/-- The role/content projection applied to each surviving history entry in
`handleChat` (`{role: String(m.role), content: String(m.content)}`); the
`none` case is unreachable after the truthiness filter. -/
def entryMsg : Option ChatMessage → AiMessage
  | none => ⟨"", ""⟩
  | some m => ⟨m.role, m.content⟩

/-- `conversationHistory.slice(-8)`: the last 8 entries, or the whole list
when it is shorter. -/
def sliceLast8 (l : List (Option ChatMessage)) : List (Option ChatMessage) :=
  l.drop (l.length - 8)

/-- The history-derived part of the assembled generation request:
`conversationHistory.slice(-8).filter(m => m && m.role && m.content).map(...)`. -/
def historyMessages (conversationHistory : List (Option ChatMessage)) : List AiMessage :=
  ((sliceLast8 conversationHistory).filter entryTruthy).map entryMsg

/-- The full `messages` array built by `handleChat`: the system prompt,
then the filtered last-8 history entries, then the new user message. -/
def assembleMessages (systemPrompt : String)
    (conversationHistory : List (Option ChatMessage)) (userMessage : String) :
    List AiMessage :=
  ⟨"system", systemPrompt⟩ ::
    (historyMessages conversationHistory ++ [⟨"user", userMessage⟩])

/-- `String(aiResponse.response || aiResponse)` in `handleChat`: use the
`response` text when it is present and non-empty, otherwise fall back to
the string rendering of the whole response value. -/
def coerceText (r : AiResponse) : String :=
  match r.response with
  | some s => if s = "" then r.render else s
  | none => r.render

/-- Parsed body of the `/api/chat` request; each field may be absent. -/
structure ChatBody where
  sessionId : Option String
  userMessage : Option String
deriving DecidableEq, Repr

/-- Outcome of the session-state read against the Durable Object: either
the stub fetch rejects (caught by `handleChat`), or it yields a JSON body
whose `stage` and `history` fields may each be absent. -/
inductive ReadOutcome where
  | threw (msg : String)
  | ok (stage : Option String) (history : Option (List (Option ChatMessage)))
deriving DecidableEq, Repr

/-- Outcome of the `env.AI.run` call: a rejection or an `AiResponse`. -/
inductive AiOutcome where
  | threw (msg : String)
  | ok (resp : AiResponse)
deriving DecidableEq, Repr

/-- Outcome of the persist fetch against the Durable Object.  `unreachable`
is a rejected stub fetch (caught by `handleChat`'s try block);
`storageError` is `handleMessage` catching an internal storage failure and
answering with a 500 error response — a completed fetch whose body
`handleChat` never inspects; `completed` is a successful write. -/
inductive WriteOutcome where
  | unreachable (msg : String)
  | storageError (msg : String)
  | completed
deriving DecidableEq, Repr

/-- The outcomes of the three external calls a `handleChat` request makes. -/
structure ChatEnv where
  read : ReadOutcome
  ai : AiOutcome
  write : WriteOutcome
deriving DecidableEq, Repr

/-- One external call issued by `handleChat`, recorded in order. -/
inductive ChatCall where
  | storeRead
  | aiRun (model : String) (messages : List AiMessage)
  | storeWrite (userMessage assistantMessage nextStage : String)
deriving DecidableEq, Repr

/-- The JSON response of `handleChat`: client error (HTTP 400), server
error (HTTP 500), or the success body `{message, stage, sessionId}`. -/
inductive ChatResponse where
  | clientError (error : String)
  | serverError (error : String)
  | success (message : String) (stage : String) (sessionId : String)
deriving DecidableEq, Repr

/-- The Workers AI model name used by `handleChat`. -/
def modelName : String := "@cf/meta/llama-3.3-70b-instruct-fp8-fast"

/-- `handleChat` (`index.ts`), as a function of the parsed request body and
the outcomes of its external calls; returns the trace of external calls it
issued together with its response.  Mirrors the source: validate the two
fields by truthiness; read the session state, defaulting a falsy stage to
`"initial"` and an absent history to `[]`; run the diagnosis workflow;
assemble the messages; call the model; coerce the reply to text; persist —
without inspecting the persist response — and answer.  A rejection of any
awaited call is caught by the surrounding try and becomes a 500 error. -/
def handleChat (body : ChatBody) (env : ChatEnv) : List ChatCall × ChatResponse :=
  if !(jsTruthy body.sessionId) || !(jsTruthy body.userMessage) then
    ([], ChatResponse.clientError "sessionId and userMessage required")
  else
    let sessionId := body.sessionId.getD ""
    let userMessage := body.userMessage.getD ""
    match env.read with
    | ReadOutcome.threw msg => ([ChatCall.storeRead], ChatResponse.serverError msg)
    | ReadOutcome.ok stageOpt historyOpt =>
      let currentStage := jsStrOr stageOpt "initial"
      let conversationHistory := historyOpt.getD []
      let wf := diagnosisWorkflowRun sessionId userMessage conversationHistory currentStage
      let messages := assembleMessages wf.systemPrompt conversationHistory userMessage
      match env.ai with
      | AiOutcome.threw msg =>
        ([ChatCall.storeRead, ChatCall.aiRun modelName messages],
         ChatResponse.serverError msg)
      | AiOutcome.ok resp =>
        let assistantMessage := coerceText resp
        let calls := [ChatCall.storeRead, ChatCall.aiRun modelName messages,
          ChatCall.storeWrite userMessage assistantMessage wf.nextStage]
        match env.write with
        | WriteOutcome.unreachable msg => (calls, ChatResponse.serverError msg)
        | WriteOutcome.storageError _ =>
          (calls, ChatResponse.success assistantMessage wf.nextStage sessionId)
        | WriteOutcome.completed =>
          (calls, ChatResponse.success assistantMessage wf.nextStage sessionId)

/-- Rank of a stage in the order `initial < diagnostic < solution`;
unrecognized labels rank with `solution`, which is where the policy sends
them. -/
def stageRank (s : String) : Nat :=
  if s = "initial" then 0 else if s = "diagnostic" then 1 else 2

/-- The stages visited by a session driven only by the stage policy: each
turn supplies the user message and the history the policy sees. -/
def stageTrace {α : Type} : String → List (String × List α) → List String
  | s, [] => [s]
  | s, (u, h) :: rest => s :: stageTrace (determineNextStage s u h) rest

/-- The stage a session driven only by the stage policy ends in. -/
def runPolicy {α : Type} : String → List (String × List α) → String
  | s, [] => s
  | s, (u, h) :: rest => runPolicy (determineNextStage s u h) rest

/-- A concrete 10-turn history whose fourth entry has empty content. -/
def tenTurnHistoryWithEmpty : List (Option ChatMessage) :=
  [some ⟨"user", "a", 0⟩, some ⟨"assistant", "b", 1⟩,
   some ⟨"user", "c", 2⟩, some ⟨"assistant", "", 3⟩,
   some ⟨"user", "e", 4⟩, some ⟨"assistant", "f", 5⟩,
   some ⟨"user", "g", 6⟩, some ⟨"assistant", "h", 7⟩,
   some ⟨"user", "i", 8⟩, some ⟨"assistant", "j", 9⟩]

/-- A concrete 10-turn history in which every entry has a non-empty role
and non-empty content. -/
def tenValidTurnHistory : List (Option ChatMessage) :=
  [some ⟨"user", "a", 0⟩, some ⟨"assistant", "b", 1⟩,
   some ⟨"user", "c", 2⟩, some ⟨"assistant", "d", 3⟩,
   some ⟨"user", "e", 4⟩, some ⟨"assistant", "f", 5⟩,
   some ⟨"user", "g", 6⟩, some ⟨"assistant", "h", 7⟩,
   some ⟨"user", "i", 8⟩, some ⟨"assistant", "j", 9⟩]

/-- The policy never leaves the `solution` stage. -/
lemma determineNextStage_solution_fixed {α : Type} (u : String) (h : List α) :
    determineNextStage "solution" u h = "solution" := by
  simp [determineNextStage]

/-- One policy step never lowers the stage rank, whatever the input stage. -/
lemma stageRank_le_determineNextStage {α : Type} (s u : String) (h : List α) :
    stageRank s ≤ stageRank (determineNextStage s u h) := by
  unfold determineNextStage stageRank
  split_ifs <;> simp_all

/-- `stageTrace` always starts with the stage it is given. -/
lemma stageTrace_head {α : Type} (s : String) (turns : List (String × List α)) :
    (stageTrace s turns).head? = some s := by
  cases turns with
  | nil => rfl
  | cons t rest => cases t; rfl

/-- Along any policy-driven trace, stage rank is non-decreasing. -/
lemma stageTrace_chain {α : Type} (s : String) (turns : List (String × List α)) :
    List.Chain' (fun a b => stageRank a ≤ stageRank b) (stageTrace s turns) := by
  induction turns generalizing s with
  | nil => simp [stageTrace]
  | cons t rest ih =>
    obtain ⟨u, h⟩ := t
    rw [stageTrace, List.chain'_cons']
    refine ⟨?_, ih (determineNextStage s u h)⟩
    intro b hb
    rw [stageTrace_head, Option.mem_some_iff] at hb
    subst hb
    exact stageRank_le_determineNextStage s u h

/-- Running the policy over concatenated turn lists composes. -/
lemma runPolicy_append {α : Type} (s : String) (t1 t2 : List (String × List α)) :
    runPolicy s (t1 ++ t2) = runPolicy (runPolicy s t1) t2 := by
  induction t1 generalizing s with
  | nil => rfl
  | cons t rest ih =>
    obtain ⟨u, h⟩ := t
    rw [List.cons_append, runPolicy, runPolicy, ih]

/-- A session already in `solution` stays there under any further turns. -/
lemma runPolicy_solution {α : Type} (t : List (String × List α)) :
    runPolicy "solution" t = "solution" := by
  induction t with
  | nil => rfl
  | cons x rest ih =>
    obtain ⟨u, h⟩ := x
    rw [runPolicy, determineNextStage_solution_fixed]
    exact ih

/-- C1: for every history and user message, `determineNextStage` realises the
spec's decision table: from `initial` it stays at `initial` below history
length 2 and moves to `diagnostic` at length 2 or more; from `diagnostic` it
stays below length 4 and moves to `solution` at length 4 or more; from
`solution` it always returns `solution`. -/
theorem determineNextStage_decision_table {α : Type} (u : String) (h : List α) :
    determineNextStage "initial" u h = (if h.length < 2 then "initial" else "diagnostic") ∧
    determineNextStage "diagnostic" u h = (if h.length < 4 then "diagnostic" else "solution") ∧
    determineNextStage "solution" u h = "solution" := by
  refine ⟨?_, ?_, ?_⟩ <;>
    simp only [determineNextStage] <;>
    split_ifs <;> first | rfl | (exfalso; omega) | simp_all

/-- C4: the stage transition is decided only by the current stage and the
history length — two turns with different user messages (and even differently
typed histories of equal length) produce the same next stage, so the keyword
list bound in the diagnostic branch never gates the transition. -/
theorem transition_depends_only_on_stage_and_length {α β : Type} (s m1 m2 : String)
    (h1 : List α) (h2 : List β) (hlen : h1.length = h2.length) :
    determineNextStage s m1 h1 = determineNextStage s m2 h2 := by
  simp only [determineNextStage]
  rw [hlen]

/-- Witness for C4 at concrete inputs: a keyword-laden message and an
unrelated one yield the same transition on histories of equal length. -/
theorem transition_depends_only_on_stage_and_length_witness :
    determineNextStage "diagnostic" "replace the servo" ([0, 1, 2, 3] : List Nat) =
      determineNextStage "diagnostic" "no idea yet" (["a", "b", "c", "d"] : List String) :=
  transition_depends_only_on_stage_and_length "diagnostic" "replace the servo"
    "no idea yet" [0, 1, 2, 3] ["a", "b", "c", "d"] rfl

/-- C3 counterexample: for the unrecognized stage `"unknown"` on an empty
history, the policy does not behave as it does for `"initial"`: the next
stage is `"solution"`, not `"initial"`, so the conjunction claimed by the
spec fails. -/
theorem unrecognized_stage_counterexample :
    ¬ (getSystemPromptForStage "unknown" = getSystemPromptForStage "initial" ∧
       determineNextStage "unknown" "help" ([] : List Nat) =
         determineNextStage "initial" "help" ([] : List Nat)) := by
  intro hc
  exact absurd hc.2 (by decide)

/-- C3 (amended): for every stage label outside
`{initial, diagnostic, solution}`, the policy returns the initial-stage
system prompt, but the transition falls through to the terminal branch and
returns `"solution"` for every history and message. -/
theorem unrecognized_stage_behavior {α : Type} (s u : String) (h : List α)
    (hn1 : s ≠ "initial") (hn2 : s ≠ "diagnostic") (hn3 : s ≠ "solution") :
    getSystemPromptForStage s = getSystemPromptForStage "initial" ∧
    determineNextStage s u h = "solution" := by
  constructor
  · simp [getSystemPromptForStage, hn1, hn2, hn3]
  · simp [determineNextStage, hn1, hn2]

/-- Witness for the amended C3 at a concrete unrecognized stage. -/
theorem unrecognized_stage_behavior_witness :
    getSystemPromptForStage "triage" = getSystemPromptForStage "initial" ∧
    determineNextStage "triage" "help" ([] : List Nat) = "solution" :=
  unrecognized_stage_behavior "triage" "help" [] (by decide) (by decide) (by decide)

/-- C6: stage progression is monotone and `solution` is absorbing: along any
session driven only by the stage policy from `initial`, the visited stages
never decrease in the order `initial < diagnostic < solution`, and once the
policy has reached `solution` every continuation of the session still ends
in `solution`. -/
theorem stage_monotone_and_solution_absorbing {α : Type}
    (turns t1 t2 : List (String × List α))
    (hsol : runPolicy "initial" t1 = "solution") :
    List.Chain' (fun a b => stageRank a ≤ stageRank b) (stageTrace "initial" turns) ∧
    runPolicy "initial" (t1 ++ t2) = "solution" := by
  refine ⟨stageTrace_chain _ _, ?_⟩
  rw [runPolicy_append, hsol, runPolicy_solution]

/-- Witness for C6: a concrete three-turn session that reaches `solution`
and stays there after a fourth turn, with a monotone trace. -/
theorem stage_monotone_and_solution_absorbing_witness :
    List.Chain' (fun a b => stageRank a ≤ stageRank b)
      (stageTrace "initial"
        ([("m1", []), ("m2", [0, 1]), ("m3", [0, 1, 2, 3])] : List (String × List Nat))) ∧
    runPolicy "initial"
      (([("m1", []), ("m2", [0, 1]), ("m3", [0, 1, 2, 3])] ++ [("m4", [0])]) :
        List (String × List Nat)) = "solution" :=
  stage_monotone_and_solution_absorbing
    [("m1", []), ("m2", [0, 1]), ("m3", [0, 1, 2, 3])]
    [("m1", []), ("m2", [0, 1]), ("m3", [0, 1, 2, 3])]
    [("m4", [0])] (by decide)

/-- C5 counterexample: on a 10-turn history whose fourth entry has empty
content, the assembled request has 9 messages, not the 10 the claim asserts
for every 10-turn history — the truthiness filter drops the empty entry. -/
theorem ten_turn_assembly_counterexample :
    (assembleMessages "sys" tenTurnHistoryWithEmpty "go").length ≠ 10 := by decide

/-- C5 (amended): for every 10-turn history in which every entry has a
non-empty role and non-empty content, the assembled request has exactly 10
messages: the system message, then the most recent 8 history entries in
original order each mapped to a role/content message, then the new user
message. -/
theorem ten_valid_turn_assembly (sp u : String) (hist : List (Option ChatMessage))
    (hlen : hist.length = 10) (hvalid : hist.all entryTruthy = true) :
    (assembleMessages sp hist u).length = 10 ∧
    assembleMessages sp hist u =
      ⟨"system", sp⟩ :: ((hist.drop 2).map entryMsg ++ [⟨"user", u⟩]) := by
  have hslice : sliceLast8 hist = hist.drop 2 := by
    unfold sliceLast8
    rw [hlen]
  have hall : ∀ x ∈ hist.drop 2, entryTruthy x = true := by
    intro x hx
    exact List.all_eq_true.mp hvalid x (List.mem_of_mem_drop hx)
  have hfilter : (hist.drop 2).filter entryTruthy = hist.drop 2 :=
    List.filter_eq_self.mpr hall
  have hmsgs : historyMessages hist = (hist.drop 2).map entryMsg := by
    unfold historyMessages
    rw [hslice, hfilter]
  constructor
  · simp [assembleMessages, hmsgs, hlen]
  · simp [assembleMessages, hmsgs]

/-- Witness for the amended C5 on a concrete valid 10-turn history. -/
theorem ten_valid_turn_assembly_witness :
    (assembleMessages "sys" tenValidTurnHistory "go").length = 10 ∧
    assembleMessages "sys" tenValidTurnHistory "go" =
      ⟨"system", "sys"⟩ ::
        ((tenValidTurnHistory.drop 2).map entryMsg ++ [⟨"user", "go"⟩]) :=
  ten_valid_turn_assembly "sys" "go" tenValidTurnHistory (by decide) (by decide)

/-- C10: every history-derived message in the assembled request has a
non-empty role and non-empty content (null entries and entries with a falsy
role or content are silently dropped); the request still begins with the
system message and ends with the new user message; and the history-derived
part can be shorter than `min 8 |history|`, witnessed by a single-entry
history whose content is empty. -/
theorem assembly_drops_untruthy_entries (sp u : String)
    (hist : List (Option ChatMessage)) :
    ((historyMessages hist).all (fun m => m.role != "" && m.content != "")) = true ∧
    (assembleMessages sp hist u).head? = some ⟨"system", sp⟩ ∧
    (assembleMessages sp hist u).getLast? = some ⟨"user", u⟩ ∧
    (historyMessages [some ⟨"user", "", 0⟩]).length <
      min 8 ([some ⟨"user", "", 0⟩] : List (Option ChatMessage)).length := by
  refine ⟨?_, rfl, ?_, by decide⟩
  · rw [List.all_eq_true]
    intro m hm
    rw [historyMessages, List.mem_map] at hm
    obtain ⟨x, hx, hxm⟩ := hm
    have ht := List.of_mem_filter hx
    cases x with
    | none => simp [entryTruthy] at ht
    | some e =>
      subst hxm
      simpa [entryMsg, entryTruthy] using ht
  · show ((⟨"system", sp⟩ :: historyMessages hist) ++ [⟨"user", u⟩] :
      List AiMessage).getLast? = some ⟨"user", u⟩
    rw [List.getLast?_concat]

/-- C8: the text coercion of the backend response is a total function:
when the response carries a non-empty `response` text it returns exactly
that text, and when the text field is absent or empty it returns the string
rendering of the whole response value. -/
theorem coerceText_spec (r : AiResponse) (s : String) :
    (r.response = some s → s ≠ "" → coerceText r = s) ∧
    (r.response = none → coerceText r = r.render) ∧
    (r.response = some "" → coerceText r = r.render) := by
  refine ⟨?_, ?_, ?_⟩
  · intro h1 h2
    unfold coerceText
    rw [h1]
    simp [h2]
  · intro h1
    unfold coerceText
    rw [h1]
  · intro h1
    unfold coerceText
    rw [h1]
    simp

/-- Witness for C8: a response with non-empty text coerces to that text. -/
theorem coerceText_spec_witness :
    coerceText ⟨some "All good", "rendered"⟩ = "All good" :=
  (coerceText_spec ⟨some "All good", "rendered"⟩ "All good").1 rfl (by decide)

/-- C9 counterexample: writing the empty-string stage and reading back
yields stage `"initial"`, not the written value — the read-side fallback
`storage.get('stage') || 'initial'` treats the empty string as absent. -/
theorem store_roundtrip_empty_stage_counterexample :
    (getState (handleMessage ⟨none, none⟩ "hi" "there" "" 0 1).1).stage ≠ "" := by decide

/-- C9 (amended): for every stored state and every non-empty written stage,
writing a turn pair and then reading yields a history exactly 2 entries
longer whose two new final entries are the written user turn followed by
the written assistant turn, and a stage equal to the written value.  (For
the empty-string stage the read falls back to `"initial"`.) -/
theorem store_write_read_roundtrip (st : StoredState) (u a ns : String)
    (t1 t2 : Nat) (hns : ns ≠ "") :
    (getState (handleMessage st u a ns t1 t2).1).history =
      (getState st).history ++ [⟨"user", u, t1⟩, ⟨"assistant", a, t2⟩] ∧
    (getState (handleMessage st u a ns t1 t2).1).history.length =
      (getState st).history.length + 2 ∧
    (getState (handleMessage st u a ns t1 t2).1).stage = ns := by
  refine ⟨rfl, ?_, ?_⟩
  · simp [getState, handleMessage]
  · simp [getState, handleMessage, jsStrOr, hns]

/-- Witness for the amended C9 on a fresh session. -/
theorem store_write_read_roundtrip_witness :
    (getState (handleMessage ⟨none, none⟩ "hi" "there" "diagnostic" 0 1).1).history =
      (getState (⟨none, none⟩ : StoredState)).history ++
        [⟨"user", "hi", 0⟩, ⟨"assistant", "there", 1⟩] ∧
    (getState (handleMessage ⟨none, none⟩ "hi" "there" "diagnostic" 0 1).1).history.length =
      (getState (⟨none, none⟩ : StoredState)).history.length + 2 ∧
    (getState (handleMessage ⟨none, none⟩ "hi" "there" "diagnostic" 0 1).1).stage =
      "diagnostic" :=
  store_write_read_roundtrip ⟨none, none⟩ "hi" "there" "diagnostic" 0 1 (by decide)

/-- C7: whenever the request body's `sessionId` or `userMessage` is missing
or empty, `handleChat` answers with the client error
`sessionId and userMessage required`, issues no external call at all (no
store read, no generation call, no store write), and mutates no session
state. -/
theorem missing_fields_client_error (body : ChatBody) (env : ChatEnv)
    (hbad : body.sessionId = none ∨ body.sessionId = some "" ∨
      body.userMessage = none ∨ body.userMessage = some "") :
    handleChat body env =
      ([], ChatResponse.clientError "sessionId and userMessage required") := by
  have hguard : (!(jsTruthy body.sessionId) || !(jsTruthy body.userMessage)) = true := by
    rcases hbad with h | h | h | h <;> simp [jsTruthy, h]
  simp [handleChat, hguard]

/-- Witness for C7: an empty user message is rejected with no calls. -/
theorem missing_fields_client_error_witness :
    handleChat ⟨some "sess", some ""⟩
      ⟨ReadOutcome.ok none none, AiOutcome.ok ⟨some "ok", "r"⟩,
        WriteOutcome.completed⟩ =
      ([], ChatResponse.clientError "sessionId and userMessage required") :=
  missing_fields_client_error _ _ (Or.inr (Or.inr (Or.inr rfl)))

/-- C2 counterexample: when the Durable Object's internal storage write
fails, `handleMessage` catches the failure and answers with a 500 error
response, but `handleChat` never inspects the persist response — it still
returns the generated reply in a success response.  So a failed
session-store write is not always surfaced as a server error. -/
theorem write_storage_error_yields_success :
    (handleChat ⟨some "s1", some "my robot drifts"⟩
        ⟨ReadOutcome.ok none none,
         AiOutcome.ok ⟨some "try recalibrating", "rendered"⟩,
         WriteOutcome.storageError "storage put failed"⟩).2 =
      ChatResponse.success "try recalibrating" "initial" "s1" := by decide

/-- C2 (amended): when the persist fetch itself rejects (session store
unreachable on write), `handleChat` surfaces a server error carrying the
failure message and does not return the generated reply in a success
response; when the Durable Object's internal storage write fails, its error
response is ignored and the reply is returned as a success. -/
theorem write_unreachable_surfaces_server_error (body : ChatBody) (env : ChatEnv)
    (msg : String) (stageOpt : Option String)
    (historyOpt : Option (List (Option ChatMessage))) (resp : AiResponse)
    (hsid : jsTruthy body.sessionId = true) (hum : jsTruthy body.userMessage = true)
    (hr : env.read = ReadOutcome.ok stageOpt historyOpt)
    (ha : env.ai = AiOutcome.ok resp)
    (hw : env.write = WriteOutcome.unreachable msg) :
    (handleChat body env).2 = ChatResponse.serverError msg := by
  simp [handleChat, hsid, hum, hr, ha, hw]

/-- Witness for the amended C2: an unreachable store on write yields a 500. -/
theorem write_unreachable_surfaces_server_error_witness :
    (handleChat ⟨some "s2", some "arm jitters"⟩
        ⟨ReadOutcome.ok (some "diagnostic") (some []),
         AiOutcome.ok ⟨none, "raw"⟩,
         WriteOutcome.unreachable "fetch failed"⟩).2 =
      ChatResponse.serverError "fetch failed" :=
  write_unreachable_surfaces_server_error ⟨some "s2", some "arm jitters"⟩
    ⟨ReadOutcome.ok (some "diagnostic") (some []),
     AiOutcome.ok ⟨none, "raw"⟩, WriteOutcome.unreachable "fetch failed"⟩
    "fetch failed" (some "diagnostic") (some []) ⟨none, "raw"⟩
    (by decide) (by decide) rfl rfl rfl

end RoboticsAdvisor
